import Mathlib

/-!
Shallow embedding of the financial-document-analysis pipeline of this
repository (main.py, tasks.py, db_models.py, celery_app.py) and proofs
about its frozen behavioural claims.  Machine-level effects (filesystem
probes, the database session, the Celery runtime) are made explicit as
data passed to the embedded functions; each definition mirrors one source
function.  Python strings that the code slices or case-folds are modelled
as lists of characters; opaque strings (status values, error messages)
stay Lean strings.
-/

namespace FinDoc

/-- Maximum allowed upload size in bytes, MAX_FILE_SIZE in main.py (10 MB). -/
def MAX_FILE_SIZE : Nat := 10 * 1024 * 1024

/-- First four bytes of a well-formed PDF: the ASCII codes of percent, P, D, F
(the bytes literal compared against in validate_pdf_file). -/
def pdfMagic : List Nat := [37, 80, 68, 70]

/-- Lowercase .pdf extension checked for by the endpoint and the validator. -/
def pdfExt : List Char := ['.', 'p', 'd', 'f']

/-- Abstract view of one filesystem path as probed by validate_pdf_file:
whether the path exists, and the outcomes of the two operations that can
raise (os.path.getsize, and opening the file and reading its first four
bytes).  An Except.error value models the operation raising. -/
structure FileProbe where
  present : Bool
  size : Except String Nat
  head4 : Except String (List Nat)

/-- Shallow embedding of validate_pdf_file from main.py: existence check,
case-insensitive extension check, size check, then the four-byte header
check, in source order.  The surrounding try/except, which turns any raised
error into a False return, is represented by the Except.error branches. -/
def validate_pdf_file (file_path : List Char) (fs : FileProbe) : Bool :=
  if !fs.present then false
  else if !(pdfExt.isSuffixOf (file_path.map Char.toLower)) then false
  else match fs.size with
    | .error _ => false
    | .ok file_size =>
      if file_size > MAX_FILE_SIZE then false
      else match fs.head4 with
        | .error _ => false
        | .ok header => header == pdfMagic

/-- Claim C10: validate_pdf_file is total (a Bool-valued function whose
exception branches return false) and returns true exactly when the file
exists, its lower-cased path ends in .pdf, its size probe succeeds with at
most MAX_FILE_SIZE bytes, and its first four bytes read back as the PDF
magic; any raising probe yields false. -/
theorem validate_pdf_file_correct (file_path : List Char) (fs : FileProbe) :
    validate_pdf_file file_path fs = true ↔
      fs.present = true ∧
      pdfExt.isSuffixOf (file_path.map Char.toLower) = true ∧
      (∃ n, fs.size = Except.ok n ∧ n ≤ MAX_FILE_SIZE) ∧
      fs.head4 = Except.ok pdfMagic := by
  obtain ⟨p, sz, h4⟩ := fs
  cases p <;> cases sz <;> cases h4 <;>
    by_cases he : pdfExt.isSuffixOf (file_path.map Char.toLower) <;>
      simp [validate_pdf_file, he, beq_iff_eq]

/-! The four-stage pipeline coordinator, run_financial_analysis_crew in
main.py. -/

/-- Character budget for the shared document context, max_chars in
run_financial_analysis_crew. -/
def max_chars : Nat := 15000

/-- Marker appended when the extracted text exceeds the budget (the literal
appended at main.py line 127). -/
def truncationMarker : List Char :=
  ('\n' :: '\n' :: "[Document truncated due to length...]".toList)

/-- Document-length policy of run_financial_analysis_crew: text longer than
max_chars characters is cut to its first max_chars characters with the
marker appended; shorter text is passed through unchanged. -/
def truncateDocument (document_content : List Char) : List Char :=
  if document_content.length > max_chars then
    document_content.take max_chars ++ truncationMarker
  else document_content

/-- Names of the four analysis stages, in the vocabulary of the returned
dict of run_financial_analysis_crew. -/
inductive StageName where
  | verification
  | analysis
  | investment
  | risk
deriving DecidableEq

/-- The shared context handed to every stage, crew_input in main.py: the
query and the possibly-truncated document text. -/
structure CrewInput where
  query : List Char
  document_content : List Char
deriving DecidableEq

/-- Errors raised by run_financial_analysis_crew before any stage runs;
both are ValueError in the source. -/
inductive PipelineError where
  | invalidPdf
  | emptyExtraction
deriving DecidableEq

/-- Error strings of the two ValueError raises in run_financial_analysis_crew. -/
def pipelineErrorMessage : PipelineError → String
  | .invalidPdf => "Invalid or missing PDF file"
  | .emptyExtraction => "Could not extract text from PDF"

/-- The four stage outputs aggregated into the returned dict. -/
structure CrewOutputs where
  verification : String
  analysis : String
  investment : String
  risk : String
deriving DecidableEq

/-- One recorded stage invocation: which stage was kicked off and the input
it received. -/
structure StageCall where
  stage : StageName
  input : CrewInput
deriving DecidableEq

/-- Shallow embedding of run_financial_analysis_crew: PDF validation,
extraction-emptiness check, truncation, then the four crew kickoffs in
source order, each on the one shared crew_input.  The stage capability is
the kickoff parameter; fileValid is the result of validate_pdf_file on the
saved file and extracted the text the PDF reader returned.  The trace
component lists the kickoff calls in execution order with the exact input
each received. -/
def run_financial_analysis_crew (kickoff : StageName → CrewInput → String)
    (fileValid : Bool) (extracted : List Char) (query : List Char) :
    Except PipelineError (CrewOutputs × List StageCall) :=
  if !fileValid then .error .invalidPdf
  else if extracted.isEmpty then .error .emptyExtraction
  else
    let crew_input : CrewInput := ⟨query, truncateDocument extracted⟩
    let verification_result := kickoff .verification crew_input
    let analysis_result := kickoff .analysis crew_input
    let investment_result := kickoff .investment crew_input
    let risk_result := kickoff .risk crew_input
    .ok (⟨verification_result, analysis_result, investment_result, risk_result⟩,
      [⟨.verification, crew_input⟩, ⟨.analysis, crew_input⟩,
       ⟨.investment, crew_input⟩, ⟨.risk, crew_input⟩])

/-- Claim C5: on every complete run the coordinator invokes exactly the four
stages, in the fixed order verification, analysis, investment, risk, every
stage receives the identical shared context built once from the query and
the possibly-truncated document text, and neither any input nor the call
order depends on the stage capability, so no stage consumes a prior stage
output. -/
theorem crew_fixed_order_shared_context (kickoff : StageName → CrewInput → String)
    (extracted query : List Char) (h : extracted ≠ []) :
    run_financial_analysis_crew kickoff true extracted query =
      .ok (⟨kickoff .verification ⟨query, truncateDocument extracted⟩,
            kickoff .analysis ⟨query, truncateDocument extracted⟩,
            kickoff .investment ⟨query, truncateDocument extracted⟩,
            kickoff .risk ⟨query, truncateDocument extracted⟩⟩,
        [⟨.verification, ⟨query, truncateDocument extracted⟩⟩,
         ⟨.analysis, ⟨query, truncateDocument extracted⟩⟩,
         ⟨.investment, ⟨query, truncateDocument extracted⟩⟩,
         ⟨.risk, ⟨query, truncateDocument extracted⟩⟩]) := by
  simp [run_financial_analysis_crew, List.isEmpty_iff, h]

/-- Witness for C5 at a one-character document and a constant capability. -/
theorem crew_fixed_order_shared_context_witness :
    (['a'] : List Char) ≠ [] ∧
    run_financial_analysis_crew (fun _ _ => "out") true ['a'] ['q'] =
      .ok (⟨"out", "out", "out", "out"⟩,
        [⟨.verification, ⟨['q'], truncateDocument ['a']⟩⟩,
         ⟨.analysis, ⟨['q'], truncateDocument ['a']⟩⟩,
         ⟨.investment, ⟨['q'], truncateDocument ['a']⟩⟩,
         ⟨.risk, ⟨['q'], truncateDocument ['a']⟩⟩]) :=
  ⟨by decide, crew_fixed_order_shared_context (fun _ _ => "out") ['a'] ['q'] (by decide)⟩

/-- Claim C4: every stage call of a complete run receives the truncated
document as its context text; when the extracted text exceeds the
15000-character budget that text is exactly its first 15000 characters
followed by the truncation marker, and when it is within the budget it is
passed unchanged. -/
theorem document_truncation_policy (kickoff : StageName → CrewInput → String)
    (extracted query : List Char) (h : extracted ≠ []) :
    (∀ outs trace,
        run_financial_analysis_crew kickoff true extracted query = .ok (outs, trace) →
        ∀ c ∈ trace, c.input.document_content = truncateDocument extracted) ∧
    (max_chars < extracted.length →
        truncateDocument extracted = extracted.take max_chars ++ truncationMarker ∧
        (extracted.take max_chars).length = max_chars) ∧
    (extracted.length ≤ max_chars → truncateDocument extracted = extracted) := by
  refine ⟨?_, ?_, ?_⟩
  · intro outs trace hrun c hc
    simp [run_financial_analysis_crew, List.isEmpty_iff, h] at hrun
    rcases hrun with ⟨-, htrace⟩
    subst htrace
    simp at hc
    rcases hc with hc | hc | hc | hc <;> subst hc <;> rfl
  · intro hlong
    constructor
    · simp [truncateDocument, hlong]
    · simp [List.length_take]
      omega
  · intro hshort
    simp [truncateDocument]
    omega

/-- Helper fact: a 20000-character replicated document is nonempty. -/
theorem replicate20000_ne_nil : (List.replicate 20000 'a' : List Char) ≠ [] := by
  intro hh
  have h1 := congrArg List.length hh
  rw [List.length_replicate, List.length_nil] at h1
  exact absurd h1 (by omega)

/-- Witness for C4 at a 20000-character document: the long branch applies. -/
theorem document_truncation_policy_witness :
    (List.replicate 20000 'a' : List Char) ≠ [] ∧
    ((∀ outs trace,
        run_financial_analysis_crew (fun _ _ => "out") true
            (List.replicate 20000 'a') ['q'] = .ok (outs, trace) →
        ∀ c ∈ trace,
          c.input.document_content = truncateDocument (List.replicate 20000 'a')) ∧
     (max_chars < (List.replicate 20000 'a').length →
        truncateDocument (List.replicate 20000 'a') =
            (List.replicate 20000 'a').take max_chars ++ truncationMarker ∧
        ((List.replicate 20000 'a').take max_chars).length = max_chars) ∧
     ((List.replicate 20000 'a').length ≤ max_chars →
        truncateDocument (List.replicate 20000 'a') = List.replicate 20000 'a')) :=
  ⟨replicate20000_ne_nil,
   document_truncation_policy (fun _ _ => "out") (List.replicate 20000 'a') ['q']
    replicate20000_ne_nil⟩

/-! The analyses and analysis_results tables of db_models.py and the status
helper update_analysis_status. -/

/-- One row of the analyses table (class Analysis in db_models.py), with
timestamps as naturals supplied by the caller in place of datetime.utcnow. -/
structure Analysis where
  id : Nat
  file_id : String
  filename : String
  query : String
  status : String
  task_id : Option String
  error_message : Option String
  created_at : Nat
  updated_at : Nat
  completed_at : Option Nat
deriving DecidableEq

/-- One row of the analysis_results table (class AnalysisResult), restricted
to the fields the analysed claims mention. -/
structure AnalysisResultRow where
  analysis_id : Nat
  verification : String
  financial_analysis : String
  investment_recommendations : String
  risk_assessment : String
deriving DecidableEq

/-- The two tables the status and result helpers touch. -/
structure Db where
  analyses : List Analysis
  results : List AnalysisResultRow
deriving DecidableEq

/-- Lookup of the first analyses row with the given primary key, the
query(...).filter(Analysis.id == analysis_id).first() of
update_analysis_status. -/
def findById (analysis_id : Nat) : List Analysis → Option Analysis
  | [] => none
  | a :: rest => if a.id = analysis_id then some a else findById analysis_id rest

/-- In-place mutation of the first row with the given primary key, leaving
every other row untouched; this is how the committed session persists the
attribute assignments of update_analysis_status. -/
def updateById (analysis_id : Nat) (f : Analysis → Analysis) :
    List Analysis → List Analysis
  | [] => []
  | a :: rest =>
    if a.id = analysis_id then f a :: rest
    else a :: updateById analysis_id f rest

/-- Python truthiness of an optional string argument: None and the empty
string are both falsy, so the `if task_id:` and `if error_message:` guards
skip them. -/
def strTruthy : Option String → Bool
  | none => false
  | some s => !(s == "")

/-- Field assignments of update_analysis_status on the found row: the status
is overwritten unconditionally, task_id and error_message only when truthy
arguments are given, completed_at is stamped exactly when the new status is
the completed string, and updated_at is bumped. -/
def applyStatus (now : Nat) (status : String) (task_id error_message : Option String)
    (a : Analysis) : Analysis :=
  { a with
    status := status
    task_id := if strTruthy task_id then task_id else a.task_id
    error_message := if strTruthy error_message then error_message else a.error_message
    completed_at := if status = "completed" then some now else a.completed_at
    updated_at := now }

/-- Shallow embedding of db_models.update_analysis_status: find the row, and
if it exists apply the assignments and commit; if no row matches, nothing is
written and None is returned.  No status value is ever rejected and the
function has no failure outcome. -/
def update_analysis_status (db : Db) (analysis_id : Nat) (status : String)
    (task_id error_message : Option String) (now : Nat) : Db × Option Analysis :=
  match findById analysis_id db.analyses with
  | none => (db, none)
  | some a =>
    ({ db with analyses := updateById analysis_id (applyStatus now status task_id error_message) db.analyses },
     some (applyStatus now status task_id error_message a))

/-- Shallow embedding of db_models.create_analysis_result: append one new
results row for the given analysis. -/
def create_analysis_result (db : Db) (analysis_id : Nat) (r : CrewOutputs) : Db :=
  { db with results := db.results ++
      [⟨analysis_id, r.verification, r.analysis, r.investment, r.risk⟩] }

/-- Helper lemma: applyStatus never changes the primary key. -/
theorem applyStatus_id (now : Nat) (status : String) (t e : Option String)
    (a : Analysis) : (applyStatus now status t e a).id = a.id := rfl

/-- Helper lemma: updating by key commutes with lookup by the same key when
the update preserves the key. -/
theorem findById_updateById (analysis_id : Nat) (f : Analysis → Analysis)
    (hf : ∀ a, (f a).id = a.id) (l : List Analysis) :
    findById analysis_id (updateById analysis_id f l) =
      (findById analysis_id l).map f := by
  induction l with
  | nil => rfl
  | cons a rest ih =>
    by_cases h : a.id = analysis_id
    · simp [updateById, findById, h, hf]
    · simp [updateById, findById, h, ih]

/-- Helper lemma: an update at an absent key leaves the table unchanged. -/
theorem updateById_of_findById_none (analysis_id : Nat) (f : Analysis → Analysis)
    (l : List Analysis) (h : findById analysis_id l = none) :
    updateById analysis_id f l = l := by
  induction l with
  | nil => rfl
  | cons a rest ih =>
    by_cases ha : a.id = analysis_id
    · simp [findById, ha] at h
    · simp [findById, ha] at h
      simp [updateById, ha, ih h]

/-- Helper lemma: the analyses table after update_analysis_status is the
keyed update of the table before. -/
theorem update_analysis_status_analyses (db : Db) (analysis_id : Nat)
    (status : String) (t e : Option String) (now : Nat) :
    (update_analysis_status db analysis_id status t e now).1.analyses =
      updateById analysis_id (applyStatus now status t e) db.analyses := by
  unfold update_analysis_status
  cases h : findById analysis_id db.analyses with
  | none => simp [updateById_of_findById_none _ _ _ h]
  | some a => rfl

/-- Helper lemma: update_analysis_status writes nothing to the results table. -/
theorem update_analysis_status_results (db : Db) (analysis_id : Nat)
    (status : String) (t e : Option String) (now : Nat) :
    (update_analysis_status db analysis_id status t e now).1.results = db.results := by
  unfold update_analysis_status
  cases h : findById analysis_id db.analyses <;> rfl

/-- Helper lemma: the row visible after update_analysis_status is the
applyStatus image of the row before. -/
theorem findById_after_update (db : Db) (analysis_id : Nat) (status : String)
    (t e : Option String) (now : Nat) :
    findById analysis_id (update_analysis_status db analysis_id status t e now).1.analyses =
      (findById analysis_id db.analyses).map (applyStatus now status t e) := by
  rw [update_analysis_status_analyses,
    findById_updateById _ _ (fun a => applyStatus_id now status t e a)]

/-- Counterexample for claim C2: on a row already in status completed, a
request to set status queued is applied silently, the operation returns the
moved row instead of failing, and it even leaves completed_at set while the
status is queued; so transitions are neither monotonic nor loudly rejected. -/
theorem update_status_backward_transition_cex :
    (update_analysis_status
        ⟨[⟨1, "f", "doc.pdf", "q", "completed", none, none, 0, 0, some 0⟩], []⟩
        1 "queued" none none 10).1.analyses =
      [⟨1, "f", "doc.pdf", "q", "queued", none, none, 0, 10, some 0⟩] ∧
    (update_analysis_status
        ⟨[⟨1, "f", "doc.pdf", "q", "completed", none, none, 0, 0, some 0⟩], []⟩
        1 "queued" none none 10).2 =
      some ⟨1, "f", "doc.pdf", "q", "queued", none, none, 0, 10, some 0⟩ :=
  ⟨rfl, rfl⟩

/-- Claim C2 amended: update_analysis_status performs no transition
validation at all; whenever the row exists, the requested status — forward,
backward or arbitrary — is written unconditionally, both in the returned row
and in the table, and the operation never fails (row absence is the only
case in which nothing is written, and even that is silent). -/
theorem update_status_applies_any_status (db : Db) (analysis_id : Nat)
    (status : String) (t e : Option String) (now : Nat) :
    ((update_analysis_status db analysis_id status t e now).2).map Analysis.status =
      (findById analysis_id db.analyses).map (fun _ => status) ∧
    (findById analysis_id
        (update_analysis_status db analysis_id status t e now).1.analyses).map
        Analysis.status =
      (findById analysis_id db.analyses).map (fun _ => status) := by
  constructor
  · unfold update_analysis_status
    cases h : findById analysis_id db.analyses <;> simp [h, applyStatus]
  · rw [findById_after_update]
    cases findById analysis_id db.analyses <;> simp [applyStatus]

/-- Counterexample for claim C3: completing the same job twice, with the
clock advanced from 0 to 1 between the calls, changes completed_at from
some 0 to some 1, so the second mark_completed is not a no-op on
completed_at. -/
theorem mark_completed_twice_changes_completed_at :
    (findById 1 (update_analysis_status
        ⟨[⟨1, "f", "doc.pdf", "q", "processing", none, none, 0, 0, none⟩],
          [⟨1, "v", "fa", "ir", "ra"⟩]⟩
        1 "completed" none none 0).1.analyses).map Analysis.completed_at =
      some (some 0) ∧
    (findById 1 (update_analysis_status
        (update_analysis_status
          ⟨[⟨1, "f", "doc.pdf", "q", "processing", none, none, 0, 0, none⟩],
            [⟨1, "v", "fa", "ir", "ra"⟩]⟩
          1 "completed" none none 0).1
        1 "completed" none none 1).1.analyses).map Analysis.completed_at =
      some (some 1) :=
  ⟨rfl, rfl⟩

/-- Claim C3 amended: re-invoking mark_completed (update_analysis_status
with status completed) on an already-completed job raises no error and
leaves the stored stage results untouched, but it overwrites completed_at
(and updated_at) with the clock of the second call; completed_at is
unchanged only when the two calls observe the same clock value. -/
theorem mark_completed_reapplied_effects (db : Db) (analysis_id : Nat)
    (t1 t2 : Nat) :
    (update_analysis_status
        (update_analysis_status db analysis_id "completed" none none t1).1
        analysis_id "completed" none none t2).1.results = db.results ∧
    (findById analysis_id
        (update_analysis_status db analysis_id "completed" none none t1).1.analyses).map
        Analysis.completed_at =
      (findById analysis_id db.analyses).map (fun _ => some t1) ∧
    (findById analysis_id
        (update_analysis_status
          (update_analysis_status db analysis_id "completed" none none t1).1
          analysis_id "completed" none none t2).1.analyses).map
        Analysis.completed_at =
      (findById analysis_id db.analyses).map (fun _ => some t2) ∧
    (findById analysis_id
        (update_analysis_status
          (update_analysis_status db analysis_id "completed" none none t1).1
          analysis_id "completed" none none t2).1.analyses).map
        Analysis.status =
      (findById analysis_id db.analyses).map (fun _ => "completed") := by
  refine ⟨?_, ?_, ?_, ?_⟩
  · rw [update_analysis_status_results, update_analysis_status_results]
  · rw [findById_after_update]
    cases findById analysis_id db.analyses <;> simp [applyStatus]
  · rw [findById_after_update, findById_after_update]
    cases findById analysis_id db.analyses <;> simp [applyStatus]
  · rw [findById_after_update, findById_after_update]
    cases findById analysis_id db.analyses <;> simp [applyStatus]

/-! The retryable unit of work analyze_financial_document_task from
tasks.py, together with the Celery retry contract its except clauses rely
on. -/

/-- Retry ceiling of the analysis task, max_retries=3 in the decorator of
analyze_financial_document_task. -/
def analysis_max_retries : Nat := 3

/-- What the body of one task attempt produced, as discriminated by the
except clauses of analyze_financial_document_task: the crew ran to an
Except value (a ValueError is the error case), the soft time limit fired,
or some other exception escaped. -/
inductive AttemptEvent where
  | crewRan (outcome : Except PipelineError CrewOutputs)
  | softTimeout
  | otherError (msg : String)

/-- The externally visible end of one attempt: a plain return, a Retry
raised by self.retry (the attempt is redelivered after the countdown), or a
terminal exception once the retry ceiling is exceeded. -/
inductive AttemptResult where
  | returned (status : String)
  | retryScheduled (countdown : Nat)
  | exhausted (msg : String)
deriving DecidableEq

/-- Models the Celery runtime contract of self.retry(countdown, exc): while
the retry counter is below max_retries the attempt is rescheduled after the
countdown, otherwise the supplied exception propagates terminally. -/
def celeryRetry (retries maxRetries countdown : Nat) (msg : String) : AttemptResult :=
  if retries < maxRetries then .retryScheduled countdown else .exhausted msg

/-- Shallow embedding of analyze_financial_document_task from tasks.py.
retries is self.request.retries (number of prior retries, 0 on the first
attempt), ev the outcome of the try block, analysis_id the record key with
0 standing for a falsy (absent) id so that the `if analysis_id:`-guarded
database writes are skipped.  Success stores the results and marks the
record completed; a ValueError marks it failed and returns without retry;
a soft-timeout marks it failed with the message Task timeout and retries
after 60 seconds; any other error marks it failed and retries after
2 ^ retries seconds. -/
def analyze_financial_document_task (retries : Nat) (ev : AttemptEvent) (db : Db)
    (analysis_id : Nat) (task_id : String) (now : Nat) : AttemptResult × Db :=
  let db1 := if analysis_id = 0 then db
    else (update_analysis_status db analysis_id "processing" (some task_id) none now).1
  match ev with
  | .crewRan (.ok results) =>
    let db2 := if analysis_id = 0 then db1
      else (update_analysis_status (create_analysis_result db1 analysis_id results)
              analysis_id "completed" none none now).1
    (.returned "success", db2)
  | .crewRan (.error pe) =>
    let db2 := if analysis_id = 0 then db1
      else (update_analysis_status db1 analysis_id "failed" none
              (some (pipelineErrorMessage pe)) now).1
    (.returned "error", db2)
  | .softTimeout =>
    let db2 := if analysis_id = 0 then db1
      else (update_analysis_status db1 analysis_id "failed" none
              (some "Task timeout") now).1
    (celeryRetry retries analysis_max_retries 60 "Task timeout, retrying...", db2)
  | .otherError msg =>
    let db2 := if analysis_id = 0 then db1
      else (update_analysis_status db1 analysis_id "failed" none (some msg) now).1
    (celeryRetry retries analysis_max_retries (2 ^ retries) msg, db2)

/-- Claim C6: a validation error (a ValueError from validate_pdf_file or
from the crew, in particular the empty-extraction case exhibited in the
last conjunct) makes the attempt return without raising self.retry — no
retry is ever scheduled whatever the retry counter, so the attempt count
stays at 1 — and leaves the record failed. -/
theorem validation_error_terminal_no_retry (retries : Nat) (pe : PipelineError)
    (kickoff : StageName → CrewInput → String) (query : List Char) (db : Db)
    (analysis_id : Nat) (task_id : String) (now : Nat) (hid : analysis_id ≠ 0) :
    (analyze_financial_document_task retries (.crewRan (.error pe)) db
        analysis_id task_id now).1 = .returned "error" ∧
    (findById analysis_id (analyze_financial_document_task retries
        (.crewRan (.error pe)) db analysis_id task_id now).2.analyses).map
        Analysis.status =
      (findById analysis_id db.analyses).map (fun _ => "failed") ∧
    run_financial_analysis_crew kickoff true [] query = .error .emptyExtraction := by
  refine ⟨rfl, ?_, rfl⟩
  simp only [analyze_financial_document_task, if_neg hid]
  rw [findById_after_update, findById_after_update]
  cases findById analysis_id db.analyses <;> simp [applyStatus]

/-- Witness for C6 with a concrete queued record and the empty-extraction
validation error on the first attempt. -/
theorem validation_error_terminal_no_retry_witness :
    (1 : Nat) ≠ 0 ∧
    ((analyze_financial_document_task 0 (.crewRan (.error .emptyExtraction))
        ⟨[⟨1, "f", "doc.pdf", "q", "queued", none, none, 0, 0, none⟩], []⟩
        1 "tid" 5).1 = .returned "error" ∧
    (findById 1 (analyze_financial_document_task 0 (.crewRan (.error .emptyExtraction))
        ⟨[⟨1, "f", "doc.pdf", "q", "queued", none, none, 0, 0, none⟩], []⟩
        1 "tid" 5).2.analyses).map Analysis.status =
      (findById 1 (⟨[⟨1, "f", "doc.pdf", "q", "queued", none, none, 0, 0, none⟩], []⟩ : Db).analyses).map
        (fun _ => "failed") ∧
    run_financial_analysis_crew (fun _ _ => "out") true [] ['q'] =
      .error .emptyExtraction) :=
  ⟨by decide,
   validation_error_terminal_no_retry 0 .emptyExtraction (fun _ _ => "out") ['q']
     ⟨[⟨1, "f", "doc.pdf", "q", "queued", none, none, 0, 0, none⟩], []⟩
     1 "tid" 5 (by decide)⟩

/-- Counterexample for claim C7: at retries = 3 (the ceiling), a
soft-timeout attempt ends with the terminal exception carrying the message
Task timeout, retrying..., and the job record is left failed with
error_message Task timeout — the error message the claim requires, timeout
comma retries exhausted, appears nowhere. -/
theorem timeout_exhausted_message_cex :
    (analyze_financial_document_task 3 .softTimeout
        ⟨[⟨1, "f", "doc.pdf", "q", "processing", none, none, 0, 0, none⟩], []⟩
        1 "tid" 5).1 = .exhausted "Task timeout, retrying..." ∧
    (findById 1 (analyze_financial_document_task 3 .softTimeout
        ⟨[⟨1, "f", "doc.pdf", "q", "processing", none, none, 0, 0, none⟩], []⟩
        1 "tid" 5).2.analyses).map Analysis.error_message =
      some (some "Task timeout") ∧
    "Task timeout" ≠ "timeout, retries exhausted." :=
  ⟨rfl, rfl, by decide⟩

/-- Claim C7 amended: a soft-timeout attempt is retried after a fixed
60-second countdown while the retry counter is below the ceiling of 3, and
past the ceiling the attempt ends terminally; on every such attempt the
record is set to failed with error_message Task timeout — not with the
message timeout, retries exhausted named by the original claim. -/
theorem soft_timeout_retry_policy (retries : Nat) (db : Db) (analysis_id : Nat)
    (task_id : String) (now : Nat) (hid : analysis_id ≠ 0) :
    (analyze_financial_document_task retries .softTimeout db analysis_id task_id now).1 =
      (if retries < analysis_max_retries then AttemptResult.retryScheduled 60
       else AttemptResult.exhausted "Task timeout, retrying...") ∧
    analysis_max_retries = 3 ∧
    (findById analysis_id (analyze_financial_document_task retries .softTimeout db
        analysis_id task_id now).2.analyses).map Analysis.error_message =
      (findById analysis_id db.analyses).map (fun _ => some "Task timeout") ∧
    (findById analysis_id (analyze_financial_document_task retries .softTimeout db
        analysis_id task_id now).2.analyses).map Analysis.status =
      (findById analysis_id db.analyses).map (fun _ => "failed") := by
  refine ⟨rfl, rfl, ?_, ?_⟩ <;>
  · simp only [analyze_financial_document_task, if_neg hid]
    rw [findById_after_update, findById_after_update]
    cases findById analysis_id db.analyses <;> simp [applyStatus, strTruthy]

/-- Witness for C7 on a concrete processing record below the retry ceiling. -/
theorem soft_timeout_retry_policy_witness :
    (1 : Nat) ≠ 0 ∧
    ((analyze_financial_document_task 2 .softTimeout
        ⟨[⟨1, "f", "doc.pdf", "q", "processing", none, none, 0, 0, none⟩], []⟩
        1 "tid" 5).1 =
      (if 2 < analysis_max_retries then AttemptResult.retryScheduled 60
       else AttemptResult.exhausted "Task timeout, retrying...") ∧
    analysis_max_retries = 3 ∧
    (findById 1 (analyze_financial_document_task 2 .softTimeout
        ⟨[⟨1, "f", "doc.pdf", "q", "processing", none, none, 0, 0, none⟩], []⟩
        1 "tid" 5).2.analyses).map Analysis.error_message =
      (findById 1 (⟨[⟨1, "f", "doc.pdf", "q", "processing", none, none, 0, 0, none⟩], []⟩ : Db).analyses).map
        (fun _ => some "Task timeout") ∧
    (findById 1 (analyze_financial_document_task 2 .softTimeout
        ⟨[⟨1, "f", "doc.pdf", "q", "processing", none, none, 0, 0, none⟩], []⟩
        1 "tid" 5).2.analyses).map Analysis.status =
      (findById 1 (⟨[⟨1, "f", "doc.pdf", "q", "processing", none, none, 0, 0, none⟩], []⟩ : Db).analyses).map
        (fun _ => "failed")) :=
  ⟨by decide,
   soft_timeout_retry_policy 2
     ⟨[⟨1, "f", "doc.pdf", "q", "processing", none, none, 0, 0, none⟩], []⟩
     1 "tid" 5 (by decide)⟩

/-- Claim C8: an unclassified execution error is retried with exponential
backoff — the countdown raised with self.retry is exactly 2 ^ retries for
the current retry counter — under the same ceiling of 3 retries, past which
the attempt ends terminally. -/
theorem unclassified_error_backoff (retries : Nat) (msg : String) (db : Db)
    (analysis_id : Nat) (task_id : String) (now : Nat) :
    (analyze_financial_document_task retries (.otherError msg) db analysis_id
        task_id now).1 =
      (if retries < analysis_max_retries then AttemptResult.retryScheduled (2 ^ retries)
       else AttemptResult.exhausted msg) ∧
    analysis_max_retries = 3 :=
  ⟨rfl, rfl⟩

/-! The periodic reaper cleanup_old_files from tasks.py. -/

/-- Retention window in seconds, older_than in cleanup_old_files (24 hours). -/
def older_than : Nat := 86400

/-- One artifact in the data directory: its name, its modification time and
whether os.remove on it would succeed (false models the per-file exception
branch of the sweep). -/
structure StoredFile where
  name : List Char
  mtime : Nat
  removable : Bool
deriving DecidableEq

/-- Glob pattern of the sweep: the file names matched by
financial_document_*.pdf, i.e. the tracked artifacts. -/
def globTracked (name : List Char) : Bool :=
  (name.take 19 == "financial_document_".toList) &&
  (name.drop (name.length - 4) == pdfExt) &&
  decide (23 ≤ name.length)

/-- The returned counters of the sweep, the dict with keys cleaned_count and
errors built by cleanup_old_files. -/
structure CleanupReport where
  cleaned_count : Nat
  errors : Nat
deriving DecidableEq

/-- Shallow embedding of cleanup_old_files from tasks.py: walk every file of
the data directory, and for each tracked artifact strictly older than the
retention window attempt removal, counting a success into cleaned_count and
a raising removal into errors while continuing the walk; every other file
is left in place.  The second component is the directory contents after the
sweep. -/
def cleanup_old_files (current_time : Nat) :
    List StoredFile → CleanupReport × List StoredFile
  | [] => (⟨0, 0⟩, [])
  | f :: rest =>
    let r := cleanup_old_files current_time rest
    if globTracked f.name && decide (current_time - f.mtime > older_than) then
      if f.removable then (⟨r.1.cleaned_count + 1, r.1.errors⟩, r.2)
      else (⟨r.1.cleaned_count, r.1.errors + 1⟩, f :: r.2)
    else (r.1, f :: r.2)

/-- Claim C9: the sweep removes exactly the tracked artifacts strictly older
than the retention window whose removal succeeds — every younger or
untracked file survives — and reports cleaned_count successful removals and
errors failed removals; a failing removal is counted and the remaining
files are still swept. -/
theorem cleanup_old_files_correct (current_time : Nat) (files : List StoredFile) :
    (cleanup_old_files current_time files).1.cleaned_count =
      (files.filter (fun f => globTracked f.name &&
        decide (current_time - f.mtime > older_than) && f.removable)).length ∧
    (cleanup_old_files current_time files).1.errors =
      (files.filter (fun f => globTracked f.name &&
        decide (current_time - f.mtime > older_than) && !f.removable)).length ∧
    (cleanup_old_files current_time files).2 =
      files.filter (fun f => !(globTracked f.name &&
        decide (current_time - f.mtime > older_than) && f.removable)) := by
  induction files with
  | nil => exact ⟨rfl, rfl, rfl⟩
  | cons f rest ih =>
    obtain ⟨ih1, ih2, ih3⟩ := ih
    cases hg : globTracked f.name <;>
      cases ha : decide (current_time - f.mtime > older_than) <;>
        cases hr : f.removable <;>
          refine ⟨?_, ?_, ?_⟩ <;>
            simp only [cleanup_old_files, hg, ha, hr, List.filter_cons,
              Bool.false_and, Bool.true_and, Bool.and_false, Bool.and_true,
              Bool.not_true, Bool.not_false, if_true, if_false, ite_true,
              ite_false, Bool.false_eq_true, Bool.true_eq_false, ih1, ih2, ih3,
              List.length_cons]

/-! The submission endpoint analyze_financial_document_endpoint from
main.py, the POST /analyze route. -/

/-- The uploaded file as the endpoint sees it: its client-supplied name and
its raw bytes. -/
structure UploadedFile where
  filename : List Char
  content : List Nat
deriving DecidableEq

/-- An HTTPException raised by the endpoint, carrying the HTTP status code
and the detail string. -/
structure HTTPException where
  status_code : Nat
  detail : String
deriving DecidableEq

/-- How the synchronous analysis inside the endpoint try block can fail,
matching the except clauses of the route: a ValueError, a
FileNotFoundError, or any other exception. -/
inductive CrewFailure where
  | valueError (msg : String)
  | fileNotFound (msg : String)
  | unexpected (msg : String)
deriving DecidableEq

/-- The JSON body of a successful response, restricted to the fields the
claims mention. -/
structure EndpointSuccess where
  status : String
  file_id : String
deriving DecidableEq

/-- Python str.strip on a character list: whitespace removed from both ends. -/
def stripChars (s : List Char) : List Char :=
  ((s.dropWhile Char.isWhitespace).reverse.dropWhile Char.isWhitespace).reverse

/-- Default analysis query of the endpoint. -/
def defaultQuery : List Char :=
  "Provide comprehensive financial analysis of the submitted document".toList

/-- Query normalisation at the top of the endpoint: an absent or
whitespace-only query is replaced by the default, then stripped. -/
def normalizeQuery (query : List Char) : List Char :=
  stripChars (if query.isEmpty || (stripChars query).isEmpty then defaultQuery else query)

/-- Shallow embedding of the POST /analyze route
analyze_financial_document_endpoint from main.py: the upload checks
(extension, size, PDF magic) in source order, then the synchronous crew run
whose outcome is the crewOutcome parameter; on success one analyses row with
status completed plus one results row are committed and the results are
returned; each failure class of the try block is re-raised as the
corresponding HTTPException.  No job record exists before the crew has
finished and no record is ever written with status queued. -/
def analyze_financial_document_endpoint (file : UploadedFile) (query : List Char)
    (crewOutcome : Except CrewFailure CrewOutputs) (file_id : String) (now : Nat)
    (db : Db) : Except HTTPException (EndpointSuccess × Db) :=
  if !(pdfExt.isSuffixOf (file.filename.map Char.toLower)) then
    .error ⟨400, "Only PDF files are supported"⟩
  else if file.content.length > MAX_FILE_SIZE then
    .error ⟨413, "File size exceeds maximum allowed size of 10.0MB"⟩
  else if !(file.content.take 4 == pdfMagic) then
    .error ⟨400, "Uploaded file is not a valid PDF"⟩
  else match crewOutcome with
    | .ok results =>
      let a : Analysis :=
        ⟨db.analyses.length + 1, file_id, String.mk file.filename,
         String.mk (normalizeQuery query), "completed", none, none, now, now,
         some now⟩
      .ok (⟨"success", file_id⟩,
        ⟨db.analyses ++ [a],
         db.results ++ [⟨a.id, results.verification, results.analysis,
           results.investment, results.risk⟩]⟩)
    | .error (.valueError msg) =>
      .error ⟨400, "Validation error: " ++ msg⟩
    | .error (.fileNotFound msg) =>
      .error ⟨404, "File processing error: " ++ msg⟩
    | .error (.unexpected msg) =>
      .error ⟨500, "Error processing financial document: " ++ msg⟩

/-- Counterexample for claim C1: a submission that passes every acceptance
check (a .pdf name, a small body starting with the PDF magic) but whose
analysis then fails with the empty-extraction ValueError is answered with a
thrown HTTPException 400 — not with a job id — and a fully successful
submission creates its only job record directly in status completed, so no
queued status is ever observable after submit. -/
theorem submit_failure_raises_cex :
    analyze_financial_document_endpoint ⟨"report.pdf".toList, [37, 80, 68, 70]⟩
        ['q'] (.error (.valueError "Could not extract text from PDF")) "fid" 0
        ⟨[], []⟩ =
      .error ⟨400, "Validation error: Could not extract text from PDF"⟩ ∧
    analyze_financial_document_endpoint ⟨"report.pdf".toList, [37, 80, 68, 70]⟩
        ['q'] (.ok ⟨"v", "a", "i", "r"⟩) "fid" 7 ⟨[], []⟩ =
      .ok (⟨"success", "fid"⟩,
        ⟨[⟨1, "fid", "report.pdf", "q", "completed", none, none, 7, 7, some 7⟩],
         [⟨1, "v", "a", "i", "r"⟩]⟩) :=
  ⟨rfl, rfl⟩

/-- Claim C1 amended: the /analyze endpoint is synchronous; once a
submission is accepted (extension, size and magic checks pass) its outcome
is delivered in the same call — a successful analysis returns the results
and commits the one job record directly in status completed, while every
failure class is surfaced as a thrown HTTPException (400 for validation,
404 for a missing file, 500 otherwise) with no job record written; there is
no queued state and no status query through which a failure could be
observed instead. -/
theorem endpoint_synchronous (file : UploadedFile) (query : List Char)
    (crewOutcome : Except CrewFailure CrewOutputs) (file_id : String) (now : Nat)
    (db : Db) (hext : pdfExt.isSuffixOf (file.filename.map Char.toLower) = true)
    (hsize : file.content.length ≤ MAX_FILE_SIZE)
    (hmagic : file.content.take 4 = pdfMagic) :
    analyze_financial_document_endpoint file query crewOutcome file_id now db =
      match crewOutcome with
      | .ok results =>
        .ok (⟨"success", file_id⟩,
          ⟨db.analyses ++ [⟨db.analyses.length + 1, file_id, String.mk file.filename,
             String.mk (normalizeQuery query), "completed", none, none, now, now,
             some now⟩],
           db.results ++ [⟨db.analyses.length + 1, results.verification,
             results.analysis, results.investment, results.risk⟩]⟩)
      | .error (.valueError msg) => .error ⟨400, "Validation error: " ++ msg⟩
      | .error (.fileNotFound msg) => .error ⟨404, "File processing error: " ++ msg⟩
      | .error (.unexpected msg) =>
        .error ⟨500, "Error processing financial document: " ++ msg⟩ := by
  have hs : ¬ (file.content.length > MAX_FILE_SIZE) := by omega
  simp only [analyze_financial_document_endpoint, hext, hmagic, hs,
    Bool.not_true, Bool.false_eq_true, if_false, ite_false, beq_self_eq_true]

/-- Witness for C1 at a concrete accepted upload whose analysis fails with
the empty-extraction error. -/
theorem endpoint_synchronous_witness :
    pdfExt.isSuffixOf ((⟨"report.pdf".toList, [37, 80, 68, 70]⟩ : UploadedFile).filename.map Char.toLower) = true ∧
    (⟨"report.pdf".toList, [37, 80, 68, 70]⟩ : UploadedFile).content.length ≤ MAX_FILE_SIZE ∧
    (⟨"report.pdf".toList, [37, 80, 68, 70]⟩ : UploadedFile).content.take 4 = pdfMagic ∧
    analyze_financial_document_endpoint ⟨"report.pdf".toList, [37, 80, 68, 70]⟩
        ['q'] (.error (.unexpected "boom")) "fid" 3 ⟨[], []⟩ =
      .error ⟨500, "Error processing financial document: boom"⟩ :=
  ⟨by decide, by decide, by decide,
   endpoint_synchronous ⟨"report.pdf".toList, [37, 80, 68, 70]⟩ ['q']
     (.error (.unexpected "boom")) "fid" 3 ⟨[], []⟩ (by decide) (by decide)
     (by decide)⟩

end FinDoc
